import Mathlib

/-!
Verification of the git-acp workflow script (src/git-acp.sh) against its
natural-language specification.

The script automates git add, commit and push with an optional
Ollama-generated commit message.  The embedding below translates the
script's functions into Lean:

  - classify_commit_type (lines 83-122): a keyword scan over the output of
    git diff, tried tier by tier (feat, fix, docs, refactor, test, style,
    revert) with a chore default.  The bash function takes no arguments:
    it only reads the diff text; here the diff text is an explicit
    argument.
  - format_commit_message (lines 125-136): builds the string
    "<type-label>: <title>\n\n<description>" of line 134, in which the
    backslash-n pairs are literal two-character sequences, and prints it
    with echo -e (line 135), which interprets backslash escapes across
    the whole string — the separator and any escapes the message body
    itself contains.  The interpreter echoE below implements the escape
    table of the bash echo builtin.  The value that reaches git commit is
    captured by a command substitution at line 193, which strips trailing
    newlines; the stripping is part of the embedding.
  - main (lines 139-207): branch resolution, optional Ollama generation,
    the empty-message guard, classification, formatting, the confirmation
    prompt, then git add / git commit / git push in that order, each
    aborting the script with exit status 1 on failure (set -e semantics).
    Command-line parsing (lines 146-178) is assumed already done: a
    Config record holds the parsed options.

The effect of a run is modelled as a trace of events; a separate
interpreter (applyEvent / runState) derives the repository state (staging
area, local history, remote) from the trace, so statements about state
follow from the generic semantics of git operations, not from ad-hoc
flags.
-/

set_option maxRecDepth 4000

namespace GitAcp

/-- Conventional commit types, as enumerated at lines 14-21 of the script. -/
inductive CommitType
  | FEAT | FIX | DOCS | STYLE | REFACTOR | TEST | CHORE | REVERT
deriving DecidableEq, Repr

/-- Display label of each commit type, the full strings of lines 14-21
(for example FEAT is the string "feat ✨"). -/
def commitTypeLabel : CommitType → String
  | .FEAT => "feat ✨"
  | .FIX => "fix 🐛"
  | .DOCS => "docs 📝"
  | .STYLE => "style 💎"
  | .REFACTOR => "refactor ♻️"
  | .TEST => "test 🧪"
  | .CHORE => "chore 📦"
  | .REVERT => "revert ⏪"

/-- Character-list version of bash pattern matching: does the list begin
with the given needle? -/
def startsWithL (needle : List Char) : List Char → Bool
  | [] => needle.isEmpty
  | c :: cs =>
    match needle with
    | [] => true
    | n :: ns => n = c && startsWithL ns cs

/-- Does the needle occur as a contiguous sublist?  This embeds the bash
test [[ "$hay" == *"$needle"* ]], which is a substring test. -/
def containsL (needle : List Char) : List Char → Bool
  | [] => needle.isEmpty
  | c :: cs => startsWithL needle (c :: cs) || containsL needle cs

/-- Substring test on strings: substrIn needle hay is true when needle
occurs contiguously inside hay. -/
def substrIn (needle hay : String) : Bool :=
  containsL needle.data hay.data

/-- Feat-tier keywords of lines 88-91. -/
def hasFeatKw (d : String) : Bool :=
  substrIn "add" d || substrIn "new" d || substrIn "feature" d ||
  substrIn "update" d || substrIn "introduce" d || substrIn "implement" d ||
  substrIn "enhance" d || substrIn "create" d || substrIn "improve" d ||
  substrIn "support" d

/-- Fix-tier keywords of line 95. -/
def hasFixKw (d : String) : Bool :=
  substrIn "fix" d || substrIn "bug" d || substrIn "patch" d || substrIn "issue" d

/-- Docs-tier patterns of line 99. -/
def hasDocsKw (d : String) : Bool :=
  substrIn "docs/" d || substrIn ".md" d || substrIn "README" d

/-- Refactor-tier keywords of line 103. -/
def hasRefactorKw (d : String) : Bool :=
  substrIn "refactor" d || substrIn "restructure" d || substrIn "cleanup" d

/-- Test-tier patterns of line 107. -/
def hasTestKw (d : String) : Bool :=
  substrIn "test" d || substrIn ".test." d || substrIn "spec" d

/-- Style-tier keywords of line 111. -/
def hasStyleKw (d : String) : Bool :=
  substrIn "style" d || substrIn "format" d || substrIn "whitespace" d ||
  substrIn "lint" d

/-- Revert-tier keyword of line 115. -/
def hasRevertKw (d : String) : Bool :=
  substrIn "revert" d

/-- Embedding of classify_commit_type (lines 83-122).  The bash function
reads the diff with diff=$(git diff) and then walks one if/elif chain of
substring tests; the diff text is the only input it consults.  It echoes
the label string of the matched type; here the enumerated type is
returned and commitTypeLabel recovers the echoed string. -/
def classify_commit_type (diff : String) : CommitType :=
  if hasFeatKw diff then .FEAT
  else if hasFixKw diff then .FIX
  else if hasDocsKw diff then .DOCS
  else if hasRefactorKw diff then .REFACTOR
  else if hasTestKw diff then .TEST
  else if hasStyleKw diff then .STYLE
  else if hasRevertKw diff then .REVERT
  else .CHORE

/-- True when no keyword pattern of any tier of classify_commit_type
matches the diff text. -/
def noKeywordMatch (d : String) : Bool :=
  !(hasFeatKw d || hasFixKw d || hasDocsKw d || hasRefactorKw d ||
    hasTestKw d || hasStyleKw d || hasRevertKw d)

example : classify_commit_type "update parser" = CommitType.FEAT := by decide
example : classify_commit_type "fix crash" = CommitType.FIX := by decide
example : classify_commit_type "qqq" = CommitType.CHORE := by decide

/-- Split a character list at its first newline: the part before, and
(when a newline exists) the part after. -/
def breakAtNl : List Char → List Char × Option (List Char)
  | [] => ([], none)
  | c :: cs =>
    if c = '\n' then ([], some cs)
    else
      let p := breakAtNl cs
      (c :: p.1, p.2)

/-- Drop the leading run of newline characters. -/
def dropLeadingNl : List Char → List Char
  | [] => []
  | c :: cs => if c = '\n' then dropLeadingNl cs else c :: cs

/-- Remove every trailing newline of a string.  This is what a bash
command substitution var=$(...) does to the captured output. -/
def stripTrailingNl (s : String) : String :=
  ⟨(dropLeadingNl s.data.reverse).reverse⟩

/-- First line of a message: the embedding of
title=$(echo "$message" | head -n 1) at line 130. -/
def firstLineOf (s : String) : String :=
  ⟨(breakAtNl s.data).1⟩

/-- Everything after the first line of the message, exactly as a bash
caller sees description=$(echo "$message" | tail -n +2) at line 132:
empty when the message is a single line, and with trailing newlines
stripped by the command substitution. -/
def tailFrom2 (s : String) : String :=
  match (breakAtNl s.data).2 with
  | none => ""
  | some rest => stripTrailingNl ⟨rest⟩

example : firstLineOf "abc" = "abc" := by decide
example : firstLineOf "ab\ncd" = "ab" := by decide
example : tailFrom2 "ab\ncd" = "cd" := by decide
example : tailFrom2 "abc" = "" := by decide
example : tailFrom2 "ab\ncd\nef\n" = "cd\nef" := by decide

/-- The character produced by a single-letter escape of the echo
builtin, when the letter is one: alert, backspace, escape (e or E), form
feed, newline, carriage return, tab, vertical tab, or a backslash
escaping itself. -/
def escChar? (e : Char) : Option Char :=
  if e = 'a' then some (Char.ofNat 7)
  else if e = 'b' then some (Char.ofNat 8)
  else if e = 'e' then some (Char.ofNat 27)
  else if e = 'E' then some (Char.ofNat 27)
  else if e = 'f' then some (Char.ofNat 12)
  else if e = 'n' then some '\n'
  else if e = 'r' then some (Char.ofNat 13)
  else if e = 't' then some '\t'
  else if e = 'v' then some (Char.ofNat 11)
  else if e = '\\' then some '\\'
  else none

/-- Value of a digit character in the given radix (8 for octal escapes,
16 for hex and unicode escapes), none when the character is not a digit
of that radix. -/
def digVal? (radix : Nat) (c : Char) : Option Nat :=
  let v :=
    if '0' ≤ c ∧ c ≤ '9' then some (c.toNat - 48)
    else if 'a' ≤ c ∧ c ≤ 'f' then some (c.toNat - 87)
    else if 'A' ≤ c ∧ c ≤ 'F' then some (c.toNat - 55)
    else none
  match v with
  | some n => if n < radix then some n else none
  | none => none

/-- Character emitted by a numeric escape: the eight-bit escapes
backslash-0 and backslash-x wrap modulo 256, the unicode escapes use the
value directly (values that are not unicode scalars fall back to NUL, as
Char.ofNat does). -/
def emitDig (acc : Nat) (eight : Bool) : Char :=
  if eight then Char.ofNat (acc % 256) else Char.ofNat acc

/-- Scanner state of the echo -e escape interpreter: copying plainly, a
backslash just seen, expecting the first digit of a numeric escape that
falls back to literal output when no digit follows (backslash-x, -u, -U),
or inside a digit run with a bound on how many digits may still come. -/
inductive EscSt
  | norm
  | esc
  | digStart (radix : Nat) (maxd : Nat) (eight : Bool) (intro : Char)
  | dig (radix : Nat) (left : Nat) (acc : Nat) (eight : Bool)
deriving DecidableEq, Repr

/-- One-pass scanner implementing the escape processing of the bash echo
builtin with -e: the single-letter escapes of escChar?, backslash-c
ending all output at once, backslash-0 followed by up to three octal
digits, backslash-x by one or two hex digits, backslash-u by up to four
and backslash-U by up to eight (with no digit at all, x/u/U escapes are
output literally), any other escaped character output as backslash plus
the character, and a lone trailing backslash kept.  NUL characters that
the escapes can produce are kept in the model although the surrounding
command substitution would drop such bytes. -/
def echoERun : EscSt → List Char → List Char
  | .norm, [] => []
  | .norm, c :: cs =>
    if c = '\\' then echoERun .esc cs else c :: echoERun .norm cs
  | .esc, [] => ['\\']
  | .esc, e :: cs =>
    match escChar? e with
    | some r => r :: echoERun .norm cs
    | none =>
      if e = 'c' then []
      else if e = '0' then echoERun (.dig 8 3 0 true) cs
      else if e = 'x' then echoERun (.digStart 16 2 true 'x') cs
      else if e = 'u' then echoERun (.digStart 16 4 false 'u') cs
      else if e = 'U' then echoERun (.digStart 16 8 false 'U') cs
      else '\\' :: e :: echoERun .norm cs
  | .digStart _ _ _ intro, [] => ['\\', intro]
  | .digStart radix maxd eight intro, c :: cs =>
    match digVal? radix c with
    | some v => echoERun (.dig radix (maxd - 1) v eight) cs
    | none =>
      '\\' :: intro ::
        (if c = '\\' then echoERun .esc cs else c :: echoERun .norm cs)
  | .dig _ _ acc eight, [] => [emitDig acc eight]
  | .dig radix left acc eight, c :: cs =>
    if left = 0 then
      emitDig acc eight ::
        (if c = '\\' then echoERun .esc cs else c :: echoERun .norm cs)
    else
      match digVal? radix c with
      | some v => echoERun (.dig radix (left - 1) (radix * acc + v) eight) cs
      | none =>
        emitDig acc eight ::
          (if c = '\\' then echoERun .esc cs else c :: echoERun .norm cs)

/-- Embedding of echo -e (line 135): interpret backslash escapes over
the whole argument. -/
def echoE (l : List Char) : List Char :=
  echoERun .norm l

example : echoE "ab".data = "ab".data := by decide
example : echoE "a\\nb".data = "a\nb".data := by decide
example : echoE "a\\tb".data = "a\tb".data := by decide
example : echoE "a\\\\nb".data = "a\\nb".data := by decide
example : echoE "a\\cb".data = "a".data := by decide
example : echoE "a\\x41b".data = "aAb".data := by decide
example : echoE "a\\052b".data = "a*b".data := by decide
example : echoE "a\\u0041b".data = "aAb".data := by decide
example : echoE "a\\xzb".data = "a\\xzb".data := by decide
example : echoE "a\\qb".data = "a\\qb".data := by decide
example : echoE "a\\".data = "a\\".data := by decide

/-- Embedding of format_commit_message (lines 125-136) as its value is
captured by commit_message=$(format_commit_message ...) at line 193: line
134 joins the label of the commit type, ": ", the first line of the
message, a literal backslash-n pair twice, and the remaining lines; echo
-e at line 135 then interprets every backslash escape in that string —
the separator becomes a blank line, and escapes inside the message body
are interpreted too — and the command substitution strips trailing
newlines.  The bash defaults (chore type, message "Automated commit")
apply only to absent arguments; main always passes both, so they are not
modelled. -/
def format_commit_message (t : CommitType) (m : String) : String :=
  stripTrailingNl
    ⟨echoE (commitTypeLabel t ++ ": " ++ firstLineOf m ++ "\\n\\n" ++
      tailFrom2 m).data⟩

example : format_commit_message CommitType.FEAT "hello" = "feat ✨: hello" := by decide
example :
    format_commit_message CommitType.FIX "a\nbody" = "fix 🐛: a\n\nbody" := by decide
example :
    format_commit_message CommitType.FEAT "fix \\t alignment" =
      "feat ✨: fix \t alignment" := by decide
example :
    format_commit_message CommitType.FEAT "a\\nb" = "feat ✨: a\nb" := by decide

/-- Chars of a line before its first colon, when the line has one. -/
def beforeColon : List Char → Option (List Char)
  | [] => none
  | c :: cs =>
    if c = ':' then some []
    else (beforeColon cs).map (fun l => c :: l)

/-- Chars of a token up to the first space or opening parenthesis. -/
def tokenHead : List Char → List Char
  | [] => []
  | c :: cs => if c = ' ' ∨ c = '(' then [] else c :: tokenHead cs

/-- The commit type named by a bare type string, if any. -/
def commitTypeOfName (s : String) : Option CommitType :=
  if s = "feat" then some .FEAT
  else if s = "fix" then some .FIX
  else if s = "docs" then some .DOCS
  else if s = "style" then some .STYLE
  else if s = "refactor" then some .REFACTOR
  else if s = "test" then some .TEST
  else if s = "chore" then some .CHORE
  else if s = "revert" then some .REVERT
  else none

/-- Modelled from the spec: the tier-1 message-prefix parse of the
classifier, which the script does not implement.  §4.3: "if the caller
supplies a non-empty message whose first line matches
type, optional emoji, optional scope, then a colon and the rest,
against the known type set, use that type directly."  The first line is
split at its first colon, the part before the colon is reduced to its
first token (cut at a space introducing an emoji or at an opening
parenthesis introducing a scope), and that token is looked up in the
known type set. -/
def tier1ParseType (msg : String) : Option CommitType :=
  match beforeColon (firstLineOf msg).data with
  | none => none
  | some l => commitTypeOfName ⟨tokenHead l⟩

example : tier1ParseType "fix: correct the crash" = some CommitType.FIX := by decide
example : tier1ParseType "feat ✨: hello" = some CommitType.FEAT := by decide
example : tier1ParseType "feat(ui): hello" = some CommitType.FEAT := by decide
example : tier1ParseType "hello world" = none := by decide

/-- Modelled from the spec: the tier-2 ordered path-pattern rules of the
classifier, which the script does not implement.  §4.3 examples: "paths
under a tests directory map to test, under docs to docs, under CI/config
directories to chore". -/
def specPathPatternType (path : String) : Option CommitType :=
  if startsWithL "tests/".data path.data || substrIn "/tests/" path then
    some .TEST
  else if startsWithL "docs/".data path.data || substrIn "/docs/" path then
    some .DOCS
  else if startsWithL ".github/".data path.data || substrIn "/.github/" path ||
      startsWithL "ci/".data path.data then
    some .CHORE
  else none

/-- Number of files of the changed-file set whose path-pattern rule gives
the commit type t. -/
def pathTypeCount (files : List String) (t : CommitType) : Nat :=
  (files.filter (fun f => specPathPatternType f = some t)).length

/-- Modelled from the spec: the tier-2 file-path majority vote, which the
script does not implement.  §4.3: "if a single type accounts for a strict
majority of files, return it." -/
def specPathMajorityType (files : List String) : Option CommitType :=
  [CommitType.TEST, CommitType.DOCS, CommitType.CHORE].find?
    (fun t => files.length < 2 * pathTypeCount files t)

example :
    specPathMajorityType ["tests/a.py", "tests/b.py", "src/c.py"] =
      some CommitType.TEST := by decide
example : specPathMajorityType ["tests/a.py", "src/c.py"] = none := by decide

/-- Typed failure of the AI client, from the spec's error taxonomy. -/
inductive AIError
  | connectionFailed
deriving DecidableEq, Repr

/-- Modelled from the spec: the AI client's primary/fallback behaviour,
which the script does not implement.  §4.5: "issue request to the
configured primary endpoint; on connection failure retry once against a
configured fallback endpoint before failing."  An endpoint is modelled by
the response it would deliver: some text when reachable, none on
connection failure. -/
def specChatCompletion (primary fallback : Option String) :
    Except AIError String :=
  match primary with
  | some t => .ok t
  | none =>
    match fallback with
    | some t => .ok t
    | none => .error .connectionFailed

/-- Embedding of generate_commit_message_with_ollama (lines 73-80): one
single attempt to run git diff piped into ollama; when the pipeline fails
the function echoes an error and exits 1 — there is no second attempt and
no alternative endpoint.  The pipeline outcome is the argument: some
message on success, none on failure. -/
def generate_commit_message_with_ollama (ollamaResult : Option String) :
    Except String String :=
  match ollamaResult with
  | some m => .ok m
  | none => .error "Error: Failed to generate commit message with Ollama."

/-- The options of one invocation, as left by the parsing loop of lines
146-178.  Empty strings play the role of unset options, exactly as in
bash where every variable is initialised to "" at lines 140-144. -/
structure Config where
  addFiles : String
  message : String
  branch : String
  useOllama : Bool
  skipConfirmation : Bool
deriving DecidableEq, Repr

/-- The behaviour of the external world during one run: what git
rev-parse, the ollama pipeline, git diff, the user's answer to the
confirmation prompt, and the three mutating git commands would do. -/
structure Env where
  currentBranch : Option String
  ollamaResult : Option String
  diff : String
  confirmation : String
  addOk : Bool
  commitOk : Bool
  pushOk : Bool
deriving DecidableEq, Repr

/-- Events a run can perform, in the order the script performs them.
gitUnstage (a git reset/restore of the staging area) is included so that
its absence from every trace the script can produce is expressible; the
script never emits it. -/
inductive GEvent
  | genMessage (ok : Bool)
  | confirmAsk (answer : String)
  | gitAdd (files : String) (ok : Bool)
  | gitCommit (msg : String) (ok : Bool)
  | gitPush (branch : String) (ok : Bool)
  | gitUnstage
deriving DecidableEq, Repr

/-- Outcome of a run: the exit status of the process, the error line it
echoed (none on success or on user cancellation), and the event trace. -/
structure RunResult where
  exitCode : Nat
  errorMsg : Option String
  trace : List GEvent
deriving DecidableEq, Repr

/-- Embedding of main (lines 139-207) after option parsing.

Line 180 resolves the branch: a configured branch is used as is; an empty
one is replaced by git rev-parse output, and a rev-parse failure aborts
with status 1 under set -e.  Lines 182-184 run the Ollama generation when
requested; a failure of the pipeline aborts with status 1 (the echoed
error is captured by the command substitution).  Lines 186-189 reject an
empty message.  Lines 191-193 classify from the git diff output and
format the message.  Lines 195-202 prompt for confirmation unless
-nc was given and exit 0 on any answer other than "y".  Lines 204-206 run
git add (an empty file argument defaults to "." inside git_add, line 37),
git commit and git push; each failure echoes its own error and exits 1. -/
def runMain (cfg : Config) (env : Env) : RunResult :=
  match (if cfg.branch = "" then env.currentBranch else some cfg.branch) with
  | none => ⟨1, some "Error: Failed to get the current branch.", []⟩
  | some branch =>
    let gen : Option String × List GEvent :=
      if cfg.useOllama then
        match env.ollamaResult with
        | none => (none, [GEvent.genMessage false])
        | some m => (some m, [GEvent.genMessage true])
      else (some cfg.message, [])
    match gen with
    | (none, trace0) =>
      ⟨1, some "Error: Failed to generate commit message with Ollama.", trace0⟩
    | (some msg0, trace0) =>
      if msg0 = "" then
        ⟨1, some "Error: No commit message provided.", trace0⟩
      else
        let msg := format_commit_message (classify_commit_type env.diff) msg0
        if cfg.skipConfirmation = false ∧ env.confirmation ≠ "y" then
          ⟨0, none, trace0 ++ [GEvent.confirmAsk env.confirmation]⟩
        else
          let trace1 := trace0 ++
            (if cfg.skipConfirmation then []
             else [GEvent.confirmAsk env.confirmation])
          let filesArg := if cfg.addFiles = "" then "." else cfg.addFiles
          if env.addOk = false then
            ⟨1, some "Error: Failed to add files.",
              trace1 ++ [GEvent.gitAdd filesArg false]⟩
          else if env.commitOk = false then
            ⟨1, some "Error: Failed to commit changes.",
              trace1 ++ [GEvent.gitAdd filesArg true, GEvent.gitCommit msg false]⟩
          else if env.pushOk = false then
            ⟨1, some ("Error: Failed to push changes to branch \x27" ++
                branch ++ "\x27."),
              trace1 ++ [GEvent.gitAdd filesArg true, GEvent.gitCommit msg true,
                GEvent.gitPush branch false]⟩
          else
            ⟨0, none,
              trace1 ++ [GEvent.gitAdd filesArg true, GEvent.gitCommit msg true,
                GEvent.gitPush branch true]⟩

/-- Repository state the script can affect: whether changes are staged,
the local commit history (most recent first), and the remote history. -/
structure RepoState where
  staged : Bool
  localCommits : List String
  remoteCommits : List String
deriving DecidableEq, Repr

/-- Generic git semantics of each event: a successful add stages, a
successful commit records the message in local history and clears the
staging area, a successful push publishes the local history, an unstage
clears the staging area; failed commands and prompts change nothing. -/
def applyEvent (s : RepoState) : GEvent → RepoState
  | .genMessage _ => s
  | .confirmAsk _ => s
  | .gitAdd _ ok => if ok then { s with staged := true } else s
  | .gitCommit m ok =>
    if ok then { s with staged := false, localCommits := m :: s.localCommits }
    else s
  | .gitPush _ ok =>
    if ok then { s with remoteCommits := s.localCommits } else s
  | .gitUnstage => { s with staged := false }

/-- Repository state after a trace of events, starting from s. -/
def runState (s : RepoState) (es : List GEvent) : RepoState :=
  es.foldl applyEvent s

/-- Is the event a git add? -/
def isAddEvent : GEvent → Bool
  | .gitAdd _ _ => true
  | _ => false

/-- Is the event a message generation? -/
def isGenEvent : GEvent → Bool
  | .genMessage _ => true
  | _ => false

/-- Is the event the confirmation prompt? -/
def isConfirmEvent : GEvent → Bool
  | .confirmAsk _ => true
  | _ => false

/-- The commit type main uses for the final message.  Embeds line 192:
commit_type=$(classify_commit_type) — the user-supplied commit message is
in scope there but is not passed to classify_commit_type, which reads
nothing but the git diff output. -/
def mainCommitType (message diff : String) : CommitType :=
  classify_commit_type diff

/-!  Helper lemmas about the character-list functions, used to settle the
formatting round-trip claim. -/

theorem data_append (s t : String) : (s ++ t).data = s.data ++ t.data := rfl

theorem breakAtNl_of_not_mem (a : List Char) (ha : '\n' ∉ a) :
    breakAtNl a = (a, none) := by
  induction a with
  | nil => rfl
  | cons c cs ih =>
    have hc : c ≠ '\n' := fun h => ha (h ▸ List.mem_cons_self c cs)
    have hcs : '\n' ∉ cs := fun h => ha (List.mem_cons_of_mem c h)
    simp [breakAtNl, hc, ih hcs]

theorem breakAtNl_append_cons (a r : List Char) (ha : '\n' ∉ a) :
    breakAtNl (a ++ '\n' :: r) = (a, some r) := by
  induction a with
  | nil => simp [breakAtNl]
  | cons c cs ih =>
    have hc : c ≠ '\n' := fun h => ha (h ▸ List.mem_cons_self c cs)
    have hcs : '\n' ∉ cs := fun h => ha (List.mem_cons_of_mem c h)
    simp [breakAtNl, hc, ih hcs]

theorem commitTypeLabel_no_nl (t : CommitType) : '\n' ∉ (commitTypeLabel t).data := by
  cases t <;> decide

theorem label_line_no_nl (t : CommitType) (fl : String) (h : '\n' ∉ fl.data) :
    '\n' ∉ (commitTypeLabel t ++ ": " ++ fl).data := by
  simp only [String.data_append]
  intro hmem
  rcases List.mem_append.mp hmem with h1 | h2
  · rcases List.mem_append.mp h1 with h3 | h4
    · exact commitTypeLabel_no_nl t h3
    · simp at h4
  · exact h h2

theorem firstLineOf_label (t : CommitType) (fl : String) (h : '\n' ∉ fl.data) :
    firstLineOf (commitTypeLabel t ++ ": " ++ fl) = commitTypeLabel t ++ ": " ++ fl := by
  apply String.ext
  unfold firstLineOf
  rw [breakAtNl_of_not_mem _ (label_line_no_nl t fl h)]

theorem firstLineOf_label_tail (t : CommitType) (fl rest : String)
    (h : '\n' ∉ fl.data) :
    firstLineOf (commitTypeLabel t ++ ": " ++ fl ++ "\n\n" ++ rest)
      = commitTypeLabel t ++ ": " ++ fl := by
  apply String.ext
  unfold firstLineOf
  have hdata : (commitTypeLabel t ++ ": " ++ fl ++ "\n\n" ++ rest).data
      = (commitTypeLabel t ++ ": " ++ fl).data ++ '\n' :: ('\n' :: rest.data) := by
    simp [String.data_append]
  rw [hdata, breakAtNl_append_cons _ _ (label_line_no_nl t fl h)]

/-- A changed-file set with a strict majority of files under a tests
directory, together with a realistic diff over those files. -/
def c1Files : List String := ["tests/a.py", "tests/b.py", "src/c.py"]

/-- A diff text for c1Files whose content carries a feat keyword. -/
def c1Diff : String :=
  "diff --git a/tests/a.py b/tests/a.py\n+update the helper used by the tests\n"

/-- C1 counterexample: the script has no file-path tier at all.  For the
changed-file set c1Files, two of three files are under a tests directory,
so the spec's tier-2 majority vote yields test; but classify_commit_type
consults only the diff text, and because the diff contains the feat
keyword "update" it returns feat, not test. -/
theorem c1_counterexample :
    specPathMajorityType c1Files = some CommitType.TEST ∧
    classify_commit_type c1Diff = CommitType.FEAT ∧
    classify_commit_type c1Diff ≠ CommitType.TEST := by decide

/-- C1 amended: classify_commit_type ignores the changed-file set — it
scans only the diff text, tier by tier — so a strict file-path majority
does not determine the result: for every file set with a strict
tests-directory majority, a diff containing a feat keyword still
classifies as feat. -/
theorem c1_amended_no_path_tier (files : List String) (diff : String)
    (hmaj : specPathMajorityType files = some CommitType.TEST)
    (hkw : hasFeatKw diff = true) :
    classify_commit_type diff = CommitType.FEAT := by
  simp [classify_commit_type, hkw]

/-- Witness for c1_amended_no_path_tier at the concrete inputs c1Files
and c1Diff. -/
theorem c1_amended_witness : classify_commit_type c1Diff = CommitType.FEAT :=
  c1_amended_no_path_tier c1Files c1Diff (by decide) (by decide)

/-- C2 counterexample: the supplied message never reaches the classifier.
The message "fix: correct the crash" has a well-formed tier-1 prefix
naming fix, yet main derives the commit type from the diff alone
(line 192), and a diff containing "update" classifies as feat. -/
theorem c2_counterexample :
    tier1ParseType "fix: correct the crash" = some CommitType.FIX ∧
    mainCommitType "fix: correct the crash" "+update parser logic" =
      CommitType.FEAT ∧
    mainCommitType "fix: correct the crash" "+update parser logic" ≠
      CommitType.FIX := by decide

/-- C2 amended: the classifier has no message tier: the type main uses is
classify_commit_type of the diff, whatever the supplied message says; in
particular a conventional-commit prefix in the message is overridden by a
feat keyword in the diff. -/
theorem c2_amended_message_ignored (message diff : String) (t : CommitType)
    (hparse : tier1ParseType message = some t)
    (hkw : hasFeatKw diff = true) :
    mainCommitType message diff = CommitType.FEAT := by
  simp [mainCommitType, classify_commit_type, hkw]

/-- Witness for c2_amended_message_ignored at the concrete message
"fix: correct the crash" and a diff containing "update". -/
theorem c2_amended_witness :
    mainCommitType "fix: correct the crash" "+update parser logic" =
      CommitType.FEAT :=
  c2_amended_message_ignored "fix: correct the crash" "+update parser logic"
    CommitType.FIX (by decide) (by decide)

/-- C7: classify_commit_type is total over the fixed type set: when no
keyword of any tier matches the diff it returns chore, and for every
diff it returns one of the eight enumerated commit types. -/
theorem c7_classifier_total (diff : String) :
    (noKeywordMatch diff = true → classify_commit_type diff = CommitType.CHORE) ∧
    classify_commit_type diff ∈
      [CommitType.FEAT, CommitType.FIX, CommitType.DOCS, CommitType.STYLE,
       CommitType.REFACTOR, CommitType.TEST, CommitType.CHORE,
       CommitType.REVERT] := by
  constructor
  · intro h
    simp only [noKeywordMatch, Bool.not_eq_true', Bool.or_eq_false_iff] at h
    obtain ⟨⟨⟨⟨⟨⟨h1, h2⟩, h3⟩, h4⟩, h5⟩, h6⟩, h7⟩ := h
    simp [classify_commit_type, h1, h2, h3, h4, h5, h6, h7]
  · unfold classify_commit_type
    repeat' split
    all_goals simp

/-- Witness for c7_classifier_total: the diff "qqq" matches no keyword of
any tier and classifies as chore. -/
theorem c7_witness : classify_commit_type "qqq" = CommitType.CHORE :=
  (c7_classifier_total "qqq").1 (by decide)

/-- C8: the keyword scan tries the tiers in the fixed order feat, fix,
docs, refactor, test, style, revert, the first match wins and there is no
backtracking; in particular any diff containing a feat keyword classifies
as feat no matter which later-tier keywords it also contains. -/
theorem c8_keyword_scan_order (diff : String) :
    (hasFeatKw diff = true → classify_commit_type diff = CommitType.FEAT) ∧
    (hasFeatKw diff = false → hasFixKw diff = true →
      classify_commit_type diff = CommitType.FIX) ∧
    (hasFeatKw diff = false → hasFixKw diff = false → hasDocsKw diff = true →
      classify_commit_type diff = CommitType.DOCS) ∧
    (hasFeatKw diff = false → hasFixKw diff = false → hasDocsKw diff = false →
      hasRefactorKw diff = true →
      classify_commit_type diff = CommitType.REFACTOR) ∧
    (hasFeatKw diff = false → hasFixKw diff = false → hasDocsKw diff = false →
      hasRefactorKw diff = false → hasTestKw diff = true →
      classify_commit_type diff = CommitType.TEST) ∧
    (hasFeatKw diff = false → hasFixKw diff = false → hasDocsKw diff = false →
      hasRefactorKw diff = false → hasTestKw diff = false →
      hasStyleKw diff = true →
      classify_commit_type diff = CommitType.STYLE) ∧
    (hasFeatKw diff = false → hasFixKw diff = false → hasDocsKw diff = false →
      hasRefactorKw diff = false → hasTestKw diff = false →
      hasStyleKw diff = false → hasRevertKw diff = true →
      classify_commit_type diff = CommitType.REVERT) ∧
    (hasFeatKw diff = false → hasFixKw diff = false → hasDocsKw diff = false →
      hasRefactorKw diff = false → hasTestKw diff = false →
      hasStyleKw diff = false → hasRevertKw diff = false →
      classify_commit_type diff = CommitType.CHORE) := by
  refine ⟨?_, ?_, ?_, ?_, ?_, ?_, ?_, ?_⟩ <;>
    intros <;> simp [classify_commit_type, *]

/-- Witness for c8_keyword_scan_order: a diff containing the feat keyword
"add" together with keywords of the later fix, test and style tiers still
classifies as feat. -/
theorem c8_witness :
    classify_commit_type "add a fix for the style tests" = CommitType.FEAT :=
  (c8_keyword_scan_order "add a fix for the style tests").1 (by decide)

/-- A run that fails at the commit step: confirmation skipped, staging
succeeds, commit fails. -/
def c3Cfg : Config :=
  { addFiles := "", message := "fix the parser", branch := "main",
    useOllama := false, skipConfirmation := true }

/-- Environment for the commit-failure run. -/
def c3Env : Env :=
  { currentBranch := some "main", ollamaResult := none, diff := "",
    confirmation := "n", addOk := true, commitOk := false, pushOk := true }

/-- C3 counterexample: when the commit step fails after files were
staged, the script exits with status 1 without any unstage cleanup, and
the staging area is still populated when the program returns — it is
neither committed nor cleared. -/
theorem c3_counterexample :
    (runMain c3Cfg c3Env).exitCode = 1 ∧
    GEvent.gitUnstage ∉ (runMain c3Cfg c3Env).trace ∧
    (runState ⟨false, [], []⟩ (runMain c3Cfg c3Env).trace).staged = true ∧
    (runState ⟨false, [], []⟩ (runMain c3Cfg c3Env).trace).localCommits = [] := by
  decide

/-- C3 amended: the script has no unstage cleanup path.  In every run
that reaches the commit step and fails there, it exits with status 1 and
the commit-failure error, its trace contains no unstage event, and the
staging area remains populated. -/
theorem c3_amended_no_unstage_cleanup (cfg : Config) (env : Env) (s0 : RepoState)
    (hb : cfg.branch ≠ "") (ho : cfg.useOllama = false) (hm : cfg.message ≠ "")
    (hgo : cfg.skipConfirmation = true ∨ env.confirmation = "y")
    (ha : env.addOk = true) (hc : env.commitOk = false) :
    (runMain cfg env).exitCode = 1 ∧
    (runMain cfg env).errorMsg = some "Error: Failed to commit changes." ∧
    GEvent.gitUnstage ∉ (runMain cfg env).trace ∧
    (runState s0 (runMain cfg env).trace).staged = true := by
  cases hsc : cfg.skipConfirmation with
  | true =>
    simp [runMain, hb, ho, hm, hsc, ha, hc, runState, applyEvent]
  | false =>
    have hy : env.confirmation = "y" := by
      rcases hgo with h | h
      · rw [hsc] at h; exact absurd h (by simp)
      · exact h
    simp [runMain, hb, ho, hm, hsc, hy, ha, hc, runState, applyEvent]

/-- Witness for c3_amended_no_unstage_cleanup at the concrete run c3Cfg,
c3Env from an empty repository state. -/
theorem c3_amended_witness :
    (runMain c3Cfg c3Env).exitCode = 1 ∧
    (runMain c3Cfg c3Env).errorMsg = some "Error: Failed to commit changes." ∧
    GEvent.gitUnstage ∉ (runMain c3Cfg c3Env).trace ∧
    (runState ⟨false, [], []⟩ (runMain c3Cfg c3Env).trace).staged = true :=
  c3_amended_no_unstage_cleanup c3Cfg c3Env ⟨false, [], []⟩ (by decide)
    (by decide) (by decide) (Or.inl (by decide)) (by decide) (by decide)

/-- A run that asks Ollama for the message while the pipeline fails. -/
def c4Cfg : Config :=
  { addFiles := "", message := "", branch := "main",
    useOllama := true, skipConfirmation := false }

/-- Environment in which the single Ollama invocation fails. -/
def c4Env : Env :=
  { currentBranch := some "main", ollamaResult := none, diff := "",
    confirmation := "y", addOk := true, commitOk := true, pushOk := true }

/-- C4 counterexample: the spec's AI client would succeed by retrying the
reachable fallback endpoint and surface no error, but the script makes
exactly one Ollama attempt — generate_commit_message_with_ollama has no
fallback — and the run aborts with exit status 1, surfacing the error. -/
theorem c4_counterexample :
    specChatCompletion none (some "improve the parser") =
      Except.ok "improve the parser" ∧
    generate_commit_message_with_ollama none =
      Except.error "Error: Failed to generate commit message with Ollama." ∧
    runMain c4Cfg c4Env =
      ⟨1, some "Error: Failed to generate commit message with Ollama.",
        [GEvent.genMessage false]⟩ :=
  ⟨rfl, rfl, by decide⟩

/-- C4 amended: message generation is a single attempt against the one
configured Ollama model; when it fails there is no retry and no fallback
endpoint — the run aborts with exit status 1 before any git action. -/
theorem c4_amended_single_attempt (cfg : Config) (env : Env)
    (hb : cfg.branch ≠ "") (ho : cfg.useOllama = true)
    (hf : env.ollamaResult = none) :
    runMain cfg env =
      ⟨1, some "Error: Failed to generate commit message with Ollama.",
        [GEvent.genMessage false]⟩ := by
  simp [runMain, hb, ho, hf]

/-- Witness for c4_amended_single_attempt at the concrete run c4Cfg,
c4Env. -/
theorem c4_amended_witness :
    runMain c4Cfg c4Env =
      ⟨1, some "Error: Failed to generate commit message with Ollama.",
        [GEvent.genMessage false]⟩ :=
  c4_amended_single_attempt c4Cfg c4Env (by decide) (by decide) (by decide)

/-- A fully successful AI-assisted run. -/
def c5Cfg : Config :=
  { addFiles := "", message := "", branch := "main",
    useOllama := true, skipConfirmation := false }

/-- Environment for the fully successful run. -/
def c5Env : Env :=
  { currentBranch := some "main", ollamaResult := some "refactor the parser",
    diff := "", confirmation := "y", addOk := true, commitOk := true,
    pushOk := true }

/-- C5 counterexample: in a successful run the trace is message
generation, then the confirmation prompt, then git add, commit, push: the
git add (index 2) comes after the message was produced (index 0) and
after confirmation was requested (index 1), refuting the claimed order
Staged before MessageReady before Confirmed. -/
theorem c5_counterexample :
    (runMain c5Cfg c5Env).trace =
      [GEvent.genMessage true, GEvent.confirmAsk "y", GEvent.gitAdd "." true,
       GEvent.gitCommit "chore 📦: refactor the parser" true,
       GEvent.gitPush "main" true] ∧
    (runMain c5Cfg c5Env).trace.findIdx? isGenEvent = some 0 ∧
    (runMain c5Cfg c5Env).trace.findIdx? isConfirmEvent = some 1 ∧
    (runMain c5Cfg c5Env).trace.findIdx? isAddEvent = some 2 := by decide

/-- C5 amended: in every successful AI-assisted run the workflow order is
message generation, then confirmation, then staging, committing and
pushing — staging strictly after the message is produced and after
confirmation is requested. -/
theorem c5_amended_stage_after_message (cfg : Config) (env : Env) (m : String)
    (hb : cfg.branch ≠ "") (ho : cfg.useOllama = true)
    (hm : env.ollamaResult = some m) (hne : m ≠ "")
    (hsc : cfg.skipConfirmation = false) (hy : env.confirmation = "y")
    (ha : env.addOk = true) (hcm : env.commitOk = true)
    (hp : env.pushOk = true) :
    (runMain cfg env).trace =
      [GEvent.genMessage true, GEvent.confirmAsk "y",
       GEvent.gitAdd (if cfg.addFiles = "" then "." else cfg.addFiles) true,
       GEvent.gitCommit
         (format_commit_message (classify_commit_type env.diff) m) true,
       GEvent.gitPush cfg.branch true] := by
  simp [runMain, hb, ho, hm, hne, hsc, hy, ha, hcm, hp]

/-- Witness for c5_amended_stage_after_message at the concrete run c5Cfg,
c5Env. -/
theorem c5_amended_witness :
    (runMain c5Cfg c5Env).trace =
      [GEvent.genMessage true, GEvent.confirmAsk "y",
       GEvent.gitAdd (if c5Cfg.addFiles = "" then "." else c5Cfg.addFiles) true,
       GEvent.gitCommit
         (format_commit_message (classify_commit_type c5Env.diff)
           "refactor the parser") true,
       GEvent.gitPush c5Cfg.branch true] :=
  c5_amended_stage_after_message c5Cfg c5Env "refactor the parser" (by decide)
    (by decide) (by decide) (by decide) (by decide) (by decide) (by decide)
    (by decide) (by decide)

theorem push_error_ne_commit_error (b : String) :
    ("Error: Failed to push changes to branch \x27" ++ b ++ "\x27." : String) ≠
      "Error: Failed to commit changes." := by
  intro h
  have hlen := congrArg String.length h
  rw [String.length_append, String.length_append] at hlen
  have hA : ("Error: Failed to push changes to branch \x27" : String).length = 41 := by
    decide
  have hC : ("\x27." : String).length = 2 := by decide
  have hB : ("Error: Failed to commit changes." : String).length = 32 := by decide
  rw [hA, hC, hB] at hlen
  omega

/-- C9: a push failure after a successful commit does not undo the
commit — the committed message stays at the head of local history — and
the surfaced error is the push-failure message, distinct from the
commit-failure message.  Holds for every run that reaches the push step
with a failing push. -/
theorem c9_push_failure_keeps_commit (cfg : Config) (env : Env) (s0 : RepoState)
    (hb : cfg.branch ≠ "") (ho : cfg.useOllama = false) (hm : cfg.message ≠ "")
    (hgo : cfg.skipConfirmation = true ∨ env.confirmation = "y")
    (ha : env.addOk = true) (hc : env.commitOk = true)
    (hp : env.pushOk = false) :
    (runMain cfg env).exitCode = 1 ∧
    (runMain cfg env).errorMsg =
      some ("Error: Failed to push changes to branch \x27" ++ cfg.branch ++
        "\x27.") ∧
    (runMain cfg env).errorMsg ≠ some "Error: Failed to commit changes." ∧
    (runState s0 (runMain cfg env).trace).localCommits =
      format_commit_message (classify_commit_type env.diff) cfg.message ::
        s0.localCommits := by
  have hne : ∀ o : Option String,
      o = some ("Error: Failed to push changes to branch \x27" ++ cfg.branch ++
        "\x27.") →
      o ≠ some "Error: Failed to commit changes." := by
    intro o heq hcontra
    rw [heq] at hcontra
    exact push_error_ne_commit_error cfg.branch (Option.some.inj hcontra)
  cases hsc : cfg.skipConfirmation with
  | true =>
    refine ⟨?_, ?_, ?_, ?_⟩ <;>
      simp [runMain, hb, ho, hm, hsc, ha, hc, hp, runState, applyEvent,
        push_error_ne_commit_error cfg.branch]
  | false =>
    have hy : env.confirmation = "y" := by
      rcases hgo with h | h
      · rw [hsc] at h; exact absurd h (by simp)
      · exact h
    refine ⟨?_, ?_, ?_, ?_⟩ <;>
      simp [runMain, hb, ho, hm, hsc, hy, ha, hc, hp, runState, applyEvent,
        push_error_ne_commit_error cfg.branch]

/-- A run in which everything succeeds except the final push. -/
def c9Cfg : Config :=
  { addFiles := "", message := "fix the parser", branch := "main",
    useOllama := false, skipConfirmation := true }

/-- Environment for the push-failure run. -/
def c9Env : Env :=
  { currentBranch := some "main", ollamaResult := none, diff := "",
    confirmation := "n", addOk := true, commitOk := true, pushOk := false }

/-- Witness for c9_push_failure_keeps_commit at the concrete run c9Cfg,
c9Env from an empty repository state. -/
theorem c9_witness :
    (runMain c9Cfg c9Env).exitCode = 1 ∧
    (runMain c9Cfg c9Env).errorMsg =
      some ("Error: Failed to push changes to branch \x27" ++ c9Cfg.branch ++
        "\x27.") ∧
    (runMain c9Cfg c9Env).errorMsg ≠ some "Error: Failed to commit changes." ∧
    (runState ⟨false, [], []⟩ (runMain c9Cfg c9Env).trace).localCommits =
      format_commit_message (classify_commit_type c9Env.diff) c9Cfg.message ::
        ([] : List String) :=
  c9_push_failure_keeps_commit c9Cfg c9Env ⟨false, [], []⟩ (by decide)
    (by decide) (by decide) (Or.inl (by decide)) (by decide) (by decide)
    (by decide)

/-- C10: when confirmation is requested and the answer is anything other
than exactly "y", the script exits with status 0, performs none of add,
commit, push (its whole trace is the prompt itself), and the repository
state — staging area, local history, remote — is exactly as before. -/
theorem c10_declined_confirmation_is_noop (cfg : Config) (env : Env)
    (s0 : RepoState) (hb : cfg.branch ≠ "") (ho : cfg.useOllama = false)
    (hm : cfg.message ≠ "") (hsc : cfg.skipConfirmation = false)
    (hn : env.confirmation ≠ "y") :
    (runMain cfg env).exitCode = 0 ∧
    (runMain cfg env).trace = [GEvent.confirmAsk env.confirmation] ∧
    runState s0 (runMain cfg env).trace = s0 := by
  simp [runMain, hb, ho, hm, hsc, hn, runState, applyEvent]

/-- A run whose confirmation prompt is answered "n". -/
def c10Cfg : Config :=
  { addFiles := "", message := "fix the parser", branch := "main",
    useOllama := false, skipConfirmation := false }

/-- Environment for the declined-confirmation run. -/
def c10Env : Env :=
  { currentBranch := some "main", ollamaResult := none, diff := "",
    confirmation := "n", addOk := true, commitOk := true, pushOk := true }

/-- Witness for c10_declined_confirmation_is_noop at the concrete run
c10Cfg, c10Env from a repository state with one commit. -/
theorem c10_witness :
    (runMain c10Cfg c10Env).exitCode = 0 ∧
    (runMain c10Cfg c10Env).trace = [GEvent.confirmAsk c10Env.confirmation] ∧
    runState ⟨false, ["old"], ["old"]⟩ (runMain c10Cfg c10Env).trace =
      ⟨false, ["old"], ["old"]⟩ :=
  c10_declined_confirmation_is_noop c10Cfg c10Env ⟨false, ["old"], ["old"]⟩
    (by decide) (by decide) (by decide) (by decide) (by decide)

end GitAcp
